import Mathlib

/-!
Verification of the `@esmj/schema` runtime validation engine (`src/index.ts`).

The embedding below translates the schema-node execution model of the source:
a schema node carries an internal `_parse (value, parseOptions)` function;
modifier methods (`optional`, `nullable`, `nullish`, `default`, `transform`,
`pipe`, `refine`) wrap the node's current `_parse` via `hookOriginal`, which in
this functional embedding is plain function composition; composite
constructors (`object`, `union`) and `preprocess` follow the hooked `_parse`
implementations of the source line by line.

Modelling notes:
* JavaScript values are modelled by `JSValue`.  Numbers are modelled as
  integers: every numeric constant appearing in the verified claims is
  integral, and no verified code path performs arithmetic on numbers.
  `Date` values, boxed `String`/`Number` wrapper objects and JS arrays are
  outside the modelled fragment (no claim mentions them); consequently
  `s.array` and `dateValidation` are not embedded.
* A JS parse-result object is a record with mutable fields; `Valid` and
  `Invalid` are merged into the single record `ParseResult`, with `data`
  holding `undefined` where the source object has no `data` property (reading
  an absent property yields `undefined`), and `Option` marking the optional
  `error` / `errors` properties.  This representation is what makes the
  source behaviour of `optional()` — flipping `success` to `true` while
  leaving `error`/`errors` in place — directly expressible.
* `throw new Error(message, { cause })` in `parse` is modelled by
  `Except.error` carrying the `ErrorStructure` whose `message` and `cause`
  the thrown error receives.  `safeParse` is a total Lean function, matching
  the source guarantee that `safeParse` never throws.
-/

namespace EsmjSchema

/-- JS runtime values of the modelled fragment (see the modelling notes). -/
inductive JSValue where
  | str (s : String)
  | num (n : Int)
  | bool (b : Bool)
  | null
  | undefined
  | obj (fields : List (String × JSValue))

/-- JS property read `v[key]`: the first binding of `key` in an object,
`undefined` when the property is absent or the receiver is not an object. -/
def jsGet (v : JSValue) (key : String) : JSValue :=
  match v with
  | .obj fields =>
    match fields.find? (fun p => p.1 == key) with
    | some p => p.2
    | none => .undefined
  | _ => .undefined

/-- JS `typeof` on the modelled values. -/
def jsTypeof : JSValue → String
  | .str _ => "string"
  | .num _ => "number"
  | .bool _ => "boolean"
  | .null => "object"
  | .undefined => "undefined"
  | .obj _ => "object"

/-- JS string coercion as used in template literals of the error messages. -/
def jsToString : JSValue → String
  | .str s => s
  | .num n => toString n
  | .bool b => if b then "true" else "false"
  | .null => "null"
  | .undefined => "undefined"
  | .obj _ => "[object Object]"

/-- The source check `value === undefined`. -/
def isUndefined : JSValue → Bool
  | .undefined => true
  | _ => false

/-- The source check `value === null`. -/
def isNull : JSValue → Bool
  | .null => true
  | _ => false

/-- JS strict equality `===` restricted to the modelled values; primitives
compare by value, two distinct object literals are never identical. -/
def strictEq : JSValue → JSValue → Bool
  | .str a, .str b => a == b
  | .num a, .num b => a == b
  | .bool a, .bool b => a == b
  | .null, .null => true
  | .undefined, .undefined => true
  | _, _ => false

/-- `cause` of an `ErrorStructure`: `{ key?: string }`. -/
structure Cause where
  key : Option String
deriving DecidableEq, Repr

/-- `ErrorStructure = { message: string; cause?: { key?: string } }`. -/
structure ErrorStructure where
  message : String
  cause : Option Cause
deriving DecidableEq, Repr

/-- The record returned by `_parse`/`safeParse`.  `Valid` and `Invalid` are
merged (see the modelling notes): `data` is `undefined` where the source
object lacks the property, `error`/`errors` are `none` when absent. -/
structure ParseResult where
  success : Bool
  data : JSValue
  error : Option ErrorStructure
  errors : Option (List ErrorStructure)

/-- `ParseOptions { abortEarly?: boolean }`. -/
structure ParseOptions where
  abortEarly : Option Bool
deriving DecidableEq, Repr

/-- `defaultParseOptions = { abortEarly: true }`. -/
def defaultParseOptions : ParseOptions := { abortEarly := some true }

/-- `resolveParseOptions = { ...defaultParseOptions, ...parseOptions }`:
an absent `abortEarly` field is filled from the defaults.  (The JS corner
case of a present-but-`undefined` field spreads to `undefined`, which the
single consumer `abortEarly !== false` treats exactly like `true`; the
modelled merge therefore agrees observably.) -/
def resolveParseOptions (parseOptions : Option ParseOptions) : ParseOptions :=
  match parseOptions with
  | none => defaultParseOptions
  | some po =>
    match po.abortEarly with
    | some b => { abortEarly := some b }
    | none => defaultParseOptions

/-- `formatError(error, parentKey)`: prefix the child error key by the parent
key with a `"."` joiner.  A falsy `parentKey` (the empty string) returns the
error untouched, a falsy `error?.cause?.key` keeps just the parent key. -/
def formatError (error : ErrorStructure) (parentKey : String) : ErrorStructure :=
  if parentKey.isEmpty then error
  else
    let causeKey := error.cause.bind (fun c => c.key)
    let errorKey :=
      match causeKey with
      | some k => if k.isEmpty then parentKey else parentKey ++ "." ++ k
      | none => parentKey
    { message := "Error parsing key \"" ++ errorKey ++ "\": " ++ error.message,
      cause := some { key := some errorKey } }

/-- `propagateNestedErrors(item, errors, key)`: push every formatted nested
error of a failed child onto the running list (a no-op when the child carries
no `errors`). -/
def propagateNestedErrors (item : ParseResult) (errors : List ErrorStructure)
    (key : String) : List ErrorStructure :=
  match item.errors with
  | none => errors
  | some es => errors ++ es.map (fun err => formatError err key)

/-- A validation callback may return a boolean or a whole parse result
(the union validation does the latter). -/
inductive ValidationOutput where
  | bool (b : Bool)
  | result (r : ParseResult)

/-- The `Invalid` record built by `_parse`/`refine` on rejection:
`{ success: false, error, errors: [error] }`. -/
def mkInvalid (msg : String) : ParseResult :=
  let error : ErrorStructure := { message := msg, cause := none }
  { success := false, data := .undefined, error := some error, errors := some [error] }

/-- A schema node, reduced to its `_parse` method — the only behaviour the
verified claims depend on.  Modifier methods wrap `_parse` in place via
`hookOriginal`; here each modifier returns the wrapped node. -/
structure Schema where
  _parse : JSValue → Option ParseOptions → ParseResult

/-- `errorMessageFactory(type)` — the default error message. -/
def errorMessageFactory (type : String) : JSValue → String :=
  fun value =>
    "The value \"" ++ jsToString value ++ "\" must be type of " ++ type ++
      " but is type of \"" ++ jsTypeof value ++ "\"."

/-- The base `_parse` of `createSchemaInterface`: run the validation; `true`
yields `Valid{data: value}`, a result object with `success === true` is
returned as-is, anything else yields the `Invalid` built from `message`. -/
def createSchemaInterface (validation : JSValue → ValidationOutput)
    (message : JSValue → String) : Schema :=
  ⟨fun value _parseOptions =>
    match validation value with
    | .bool true => { success := true, data := value, error := none, errors := none }
    | .result r => if r.success then r else mkInvalid (message value)
    | .bool false => mkInvalid (message value)⟩

/-- `safeParse(value, parseOptions)` returns `_parse`'s result directly. -/
def Schema.safeParse (self : Schema) (value : JSValue)
    (parseOptions : Option ParseOptions) : ParseResult :=
  self._parse value parseOptions

/-- `parse(value, parseOptions)`: on success return `data`; on failure throw
an error carrying the failure's `message` and `cause` — modelled as
`Except.error` of the `ErrorStructure` itself.  (Within the library a failed
result always carries `error`; `getD` totalises the merged-record
representation.) -/
def Schema.parse (self : Schema) (value : JSValue)
    (parseOptions : Option ParseOptions) : Except ErrorStructure JSValue :=
  let item := self._parse value parseOptions
  if item.success then Except.ok item.data
  else Except.error (item.error.getD { message := "", cause := none })

/-- `transform(callback)`: on success replace `data` by `callback(data)`. -/
def Schema.transform (self : Schema) (callback : JSValue → JSValue) : Schema :=
  ⟨fun value parseOptions =>
    let item := self._parse value parseOptions
    if !item.success then item
    else { item with data := callback item.data }⟩

/-- `optional()`: a failed previous parse on a raw value that is exactly
`undefined` is flipped to success with `data = undefined` (the other fields
of the result object are left as they are). -/
def Schema.optional (self : Schema) : Schema :=
  ⟨fun value parseOptions =>
    let item := self._parse value parseOptions
    if !item.success && isUndefined value then
      { item with data := .undefined, success := true }
    else item⟩

/-- `nullable()`: as `optional()` but for a raw value that is exactly `null`. -/
def Schema.nullable (self : Schema) : Schema :=
  ⟨fun value parseOptions =>
    let item := self._parse value parseOptions
    if !item.success && isNull value then
      { item with data := .null, success := true }
    else item⟩

/-- `nullish()`: as `optional()` but for raw `undefined` or `null`, keeping
the raw value as `data`. -/
def Schema.nullish (self : Schema) : Schema :=
  ⟨fun value parseOptions =>
    let item := self._parse value parseOptions
    if !item.success && (isUndefined value || isNull value) then
      { item with success := true, data := value }
    else item⟩

/-- A `default()` argument: a plain value, or a factory invoked on use. -/
inductive DefaultValue where
  | val (v : JSValue)
  | fn (f : Unit → JSValue)

/-- `typeof defaultValue === 'function' ? defaultValue() : defaultValue`. -/
def resolveDefaultValue : DefaultValue → JSValue
  | .val v => v
  | .fn f => f ()

/-- `default(defaultValue)`: when the raw value is exactly `undefined`,
substitute the (resolved) default before running the previous pipeline. -/
def Schema.default (self : Schema) (defaultValue : DefaultValue) : Schema :=
  ⟨fun value parseOptions =>
    let value := if isUndefined value then resolveDefaultValue defaultValue else value
    self._parse value parseOptions⟩

/-- `pipe(schema)`: on success of the previous pipeline, re-run
`schema._parse(data, parseOptions)` and return its result. -/
def Schema.pipe (self : Schema) (schema : Schema) : Schema :=
  ⟨fun value parseOptions =>
    let item := self._parse value parseOptions
    if !item.success then item
    else schema._parse item.data parseOptions⟩

/-- `refine(validation, { message })`: on success of the previous pipeline run
the refinement; `true` or a result with `success === true` passes the
previous success through, anything else yields an `Invalid` whose message is
computed from the raw input value.  (The source resolves `abortEarly` here
but never reads it.) -/
def Schema.refine (self : Schema) (validation : JSValue → ValidationOutput)
    (message : JSValue → String) : Schema :=
  ⟨fun value parseOptions =>
    let parsedValue := self._parse value parseOptions
    if !parsedValue.success then parsedValue
    else
      match validation parsedValue.data with
      | .bool true => parsedValue
      | .result r => if r.success then parsedValue else mkInvalid (message value)
      | .bool false => mkInvalid (message value)⟩

/-- `stringValidation` (`String` wrapper objects are outside the fragment). -/
def stringValidation (value : JSValue) : Bool :=
  match value with
  | .str _ => true
  | _ => false

/-- `numberValidation`. -/
def numberValidation (value : JSValue) : Bool :=
  match value with
  | .num _ => true
  | _ => false

/-- `booleanValidation = (value) => value === true || value === false`. -/
def booleanValidation (value : JSValue) : Bool :=
  match value with
  | .bool _ => true
  | _ => false

/-- `objectValidation`: a non-null, non-array `object` (JS arrays are outside
the modelled fragment, `null` is its own `JSValue` constructor). -/
def objectValidation (value : JSValue) : Bool :=
  match value with
  | .obj _ => true
  | _ => false

/-- The field iteration of `s.object`'s hooked `_parse`: walk the definition
in declared order over the already-validated object, accumulating parsed
fields in `acc` and, in collect-all mode, formatted errors in `errs`. -/
def objectLoop (parseOptions : Option ParseOptions) (abortEarly : Option Bool)
    (value : JSValue) :
    List (String × Schema) → List (String × JSValue) → List ErrorStructure →
      ParseResult
  | [], acc, errs =>
    match errs with
    | [] => { success := true, data := .obj acc, error := none, errors := none }
    | e :: _ => { success := false, data := .undefined, error := some e, errors := some errs }
  | (key, child) :: rest, acc, errs =>
    let item := child._parse (jsGet value key) parseOptions
    if item.success then
      objectLoop parseOptions abortEarly value rest (acc ++ [(key, item.data)]) errs
    else if abortEarly != some false then
      let formattedError :=
        formatError (item.error.getD { message := "", cause := none }) key
      { success := false, data := .undefined, error := some formattedError,
        errors := some [formattedError] }
    else
      objectLoop parseOptions abortEarly value rest acc
        (propagateNestedErrors item errs key)

namespace s

/-- `s.string()`. -/
def string : Schema :=
  createSchemaInterface (fun v => .bool (stringValidation v))
    (errorMessageFactory "string")

/-- `s.number()`. -/
def number : Schema :=
  createSchemaInterface (fun v => .bool (numberValidation v))
    (errorMessageFactory "number")

/-- `s.boolean()`. -/
def boolean : Schema :=
  createSchemaInterface (fun v => .bool (booleanValidation v))
    (errorMessageFactory "boolean")

/-- `s.any()`. -/
def any : Schema :=
  createSchemaInterface (fun _ => .bool true) (errorMessageFactory "any")

/-- `s.object(definition)`: run the base object pipeline, then on success
iterate the definition fields (the JS `Record` definition has pairwise
distinct keys; the embedding carries it as an ordered association list). -/
def object (definition : List (String × Schema)) : Schema :=
  ⟨fun data parseOptions =>
    let base :=
      createSchemaInterface (fun v => .bool (objectValidation v))
        (errorMessageFactory "object")
    let value := base._parse data parseOptions
    let abortEarly := (resolveParseOptions parseOptions).abortEarly
    if value.success = false then value
    else objectLoop parseOptions abortEarly value.data definition [] []⟩

/-- The candidate loop of `s.union`'s validation: each candidate's `_parse`
is invoked as `definitions[index]._parse(value)` — with no options argument —
and the first successful result object is returned, else `false`. -/
def unionTry (definitions : List Schema) (value : JSValue) : Option ParseResult :=
  match definitions with
  | [] => none
  | d :: rest =>
    let result := d._parse value none
    if result.success then some result else unionTry rest value

/-- `s.union(definitions)`.  The source computes the aggregate error message
from the candidates' `_getDescription()`; descriptions are not part of the
embedded `_parse` behaviour, so the message is a parameter here (no verified
claim inspects the union message text). -/
def union (definitions : List Schema) (message : JSValue → String) : Schema :=
  createSchemaInterface
    (fun value =>
      match unionTry definitions value with
      | some r => .result r
      | none => .bool false)
    message

/-- `s.preprocess(callback, schema)`: the hook replaces the schema's `_parse`
by `(originalParse, value) => originalParse(callback(value))` — the
`parseOptions` argument is not forwarded, so the wrapped `_parse` runs with
`undefined` options. -/
def preprocess (callback : JSValue → JSValue) (schema : Schema) : Schema :=
  ⟨fun value _parseOptions => schema._parse (callback value) none⟩

/-- Modelled from the spec: `s.literal(value)` is referenced by the spec
(§4.5) and the repository's tests but its implementation is not under `src/`.
Per the spec, the base primitive is strict equality (`===`) against exactly
one precomputed primitive value; the message follows the repository's tests
(`Expected literal value "...", received "..."`). -/
def literal (value : JSValue) : Schema :=
  createSchemaInterface (fun candidate => .bool (strictEq candidate value))
    (fun received =>
      "Expected literal value \"" ++ jsToString value ++ "\", received \"" ++
        jsToString received ++ "\".")

end s

/-- The `{ abortEarly: false }` options value (collect-all mode). -/
def collectAll : Option ParseOptions := some { abortEarly := some false }

/-- The dotted key of a failure: `result.error?.cause?.key`. -/
def errorKeyOf (r : ParseResult) : Option String :=
  r.error.bind (fun e => e.cause.bind (fun c => c.key))

/-- A three-leaf-field object schema used by the propagation scenarios. -/
def innerThree : Schema :=
  s.object [("a", s.string), ("b", s.string), ("c", s.string)]

/-- A two-leaf-field object schema, used nested inside `threeFieldNested`. -/
def nestedXY : Schema := s.object [("x", s.string), ("y", s.string)]

/-- A three-field object schema whose first field is itself an object. -/
def threeFieldNested : Schema :=
  s.object [("a", nestedXY), ("b", s.string), ("c", s.string)]

/-- An input on which all three fields of `threeFieldNested` fail. -/
def c3Input : JSValue := .obj [("a", .obj []), ("b", .num 1), ("c", .bool true)]

/-- The nested schema `s.object({a: s.object({b: s.string()})})` of the path
accumulation scenario. -/
def nestedAB : Schema := s.object [("a", s.object [("b", s.string)])]

/-- A fixed aggregate message for the union schemas of the scenarios (the
message text is irrelevant to the verified claims). -/
def unionMsg : JSValue → String := fun _ => "Invalid union value."

/-- A refined string schema in the style of the spec's `min`-like example:
strings of length at least ten. -/
def minTenString : Schema :=
  s.string.refine
    (fun v =>
      match v with
      | .str str => .bool (decide (10 ≤ str.length))
      | _ => .bool false)
    (fun _ => "String must contain at least 10 characters.")

/-- A union candidate whose successful result observably depends on the
options its `_parse` receives: on the raw input `undefined`, `s.any`
succeeds, `transform` replaces the data by `{}`, the piped `nestedXY`
fails on its two string fields — collecting both errors exactly when it
receives `{abortEarly: false}` — and `optional()` flips the failure back to
success (raw input is `undefined`), carrying the collected `errors` along. -/
def unionProbe : Schema :=
  ((s.any.transform (fun _ => .obj [])).pipe nestedXY).optional

/-- The default-message string error for the input `undefined`. -/
def undefinedStringError : ErrorStructure :=
  { message := "The value \"undefined\" must be type of string but is type of \"undefined\".",
    cause := none }

/-- C5: `optional()` converts a failed underlying parse into success (with
`data = undefined`) only when the raw input value is exactly `undefined`;
for every other input the underlying result — in particular any failure —
is returned unchanged, so `s.string().optional().safeParse(null)` fails. -/
theorem optional_admits_only_undefined :
    (∀ (prev : Schema) (v : JSValue) (o : Option ParseOptions),
      isUndefined v = false → (prev.optional)._parse v o = prev._parse v o)
    ∧ (∀ (prev : Schema) (o : Option ParseOptions),
      (prev._parse .undefined o).success = false →
        (prev.optional)._parse .undefined o
          = { prev._parse .undefined o with data := .undefined, success := true })
    ∧ ((s.string.optional).safeParse .null none).success = false := by
  refine ⟨?_, ?_, rfl⟩
  · intro prev v o h
    simp [Schema.optional, h]
  · intro prev o h
    simp [Schema.optional, h, isUndefined]

/-- Witness for C5 at concrete inputs: a number input is passed through
unchanged, an `undefined` input flips the string failure to success. -/
theorem optional_admits_only_undefined_witness :
    (s.string.optional)._parse (.num 3) none = s.string._parse (.num 3) none
    ∧ (s.string.optional)._parse .undefined none
        = { s.string._parse .undefined none with data := .undefined, success := true } :=
  ⟨optional_admits_only_undefined.1 s.string (.num 3) none rfl,
   optional_admits_only_undefined.2.1 s.string none rfl⟩

/-- C6: `default(dv)` substitutes the (resolved) default value before the
wrapped pipeline runs, and only when the raw input is exactly `undefined`;
any other input — including `0` — is parsed untouched, so
`s.number().default(999).parse(0)` returns `0`. -/
theorem default_applies_only_for_undefined :
    (∀ (prev : Schema) (dv : DefaultValue) (v : JSValue) (o : Option ParseOptions),
      isUndefined v = false → (prev.default dv)._parse v o = prev._parse v o)
    ∧ (∀ (prev : Schema) (dv : DefaultValue) (o : Option ParseOptions),
      (prev.default dv)._parse .undefined o = prev._parse (resolveDefaultValue dv) o)
    ∧ (s.number.default (.val (.num 999))).parse (.num 0) none
        = Except.ok (.num 0) := by
  refine ⟨?_, ?_, rfl⟩
  · intro prev dv v o h
    simp [Schema.default, h]
  · intro prev dv o
    simp [Schema.default, isUndefined]

/-- Witness for C6 at concrete inputs: `0` is parsed untouched, and a factory
default is called and substituted for an `undefined` input. -/
theorem default_applies_only_for_undefined_witness :
    (s.number.default (.val (.num 999)))._parse (.num 0) none
        = s.number._parse (.num 0) none
    ∧ (s.number.default (.fn (fun _ => .num 7)))._parse .undefined none
        = s.number._parse (.num 7) none :=
  ⟨default_applies_only_for_undefined.1 s.number (.val (.num 999)) (.num 0) none rfl,
   default_applies_only_for_undefined.2.1 s.number (.fn (fun _ => .num 7)) none⟩

/-- C8 (literal is modelled from the spec, see `s.literal`): the base
validation of `s.literal(v)` is strict equality against `v`, so values of
different primitive types never match: `s.literal(0)` rejects `false`, and
`s.literal("")` rejects both `null` and `undefined`, while `s.literal(0)`
accepts `0`. -/
theorem literal_strict_equality :
    (∀ (v w : JSValue), strictEq w v = false →
      ((s.literal v).safeParse w none).success = false)
    ∧ (∀ (v w : JSValue), strictEq w v = true →
      (s.literal v).safeParse w none
        = { success := true, data := w, error := none, errors := none })
    ∧ ((s.literal (.num 0)).safeParse (.bool false) none).success = false
    ∧ ((s.literal (.str "")).safeParse .null none).success = false
    ∧ ((s.literal (.str "")).safeParse .undefined none).success = false
    ∧ ((s.literal (.num 0)).safeParse (.num 0) none).success = true := by
  refine ⟨?_, ?_, rfl, rfl, rfl, rfl⟩
  · intro v w h
    simp [s.literal, Schema.safeParse, createSchemaInterface, h, mkInvalid]
  · intro v w h
    simp [s.literal, Schema.safeParse, createSchemaInterface, h]

/-- Witness for C8 applying the quantified parts at `v = 0`, `w = false`
(mismatch) and `v = w = ""` (match). -/
theorem literal_strict_equality_witness :
    ((s.literal (.num 0)).safeParse (.bool false) none).success = false
    ∧ (s.literal (.str "")).safeParse (.str "") none
        = { success := true, data := .str "", error := none, errors := none } :=
  ⟨literal_strict_equality.1 (.num 0) (.bool false) rfl,
   literal_strict_equality.2.1 (.str "") (.str "") rfl⟩

/-- C9: when `optional()`, `nullable()` or `nullish()` converts an underlying
failure on an exactly-`undefined`/`null` input into a success, the returned
record still carries the underlying failure's `error` and `errors` fields
alongside `success: true` — concretely,
`s.string().optional().safeParse(undefined)` succeeds with `data = undefined`
and a populated `error`. -/
theorem converted_success_keeps_error_fields :
    (∀ (prev : Schema) (o : Option ParseOptions),
      (prev._parse .undefined o).success = false →
        ((prev.optional)._parse .undefined o).error = (prev._parse .undefined o).error
        ∧ ((prev.optional)._parse .undefined o).errors = (prev._parse .undefined o).errors
        ∧ ((prev.optional)._parse .undefined o).success = true)
    ∧ (∀ (prev : Schema) (o : Option ParseOptions),
      (prev._parse .null o).success = false →
        ((prev.nullable)._parse .null o).error = (prev._parse .null o).error
        ∧ ((prev.nullable)._parse .null o).errors = (prev._parse .null o).errors
        ∧ ((prev.nullable)._parse .null o).success = true)
    ∧ (∀ (prev : Schema) (o : Option ParseOptions) (v : JSValue),
      (isUndefined v || isNull v) = true →
      (prev._parse v o).success = false →
        ((prev.nullish)._parse v o).error = (prev._parse v o).error
        ∧ ((prev.nullish)._parse v o).errors = (prev._parse v o).errors
        ∧ ((prev.nullish)._parse v o).success = true
        ∧ ((prev.nullish)._parse v o).data = v)
    ∧ (((s.string.optional).safeParse .undefined none).success = true
        ∧ ((s.string.optional).safeParse .undefined none).data = .undefined
        ∧ ((s.string.optional).safeParse .undefined none).error = some undefinedStringError
        ∧ ((s.string.optional).safeParse .undefined none).errors
            = some [undefinedStringError]) := by
  refine ⟨?_, ?_, ?_, rfl, rfl, rfl, rfl⟩
  · intro prev o h
    simp [Schema.optional, h, isUndefined]
  · intro prev o h
    simp [Schema.nullable, h, isNull]
  · intro prev o v hv h
    have hv' : isUndefined v = true ∨ isNull v = true := by
      simpa [Bool.or_eq_true] using hv
    rcases hv' with hu | hn
    · simp [Schema.nullish, h, hu]
    · simp [Schema.nullish, h, hn]

/-- Witness for C9 applying the quantified parts at `s.string` with the
`undefined` and `null` inputs. -/
theorem converted_success_keeps_error_fields_witness :
    (((s.string.optional)._parse .undefined none).error
        = (s.string._parse .undefined none).error
      ∧ ((s.string.optional)._parse .undefined none).errors
        = (s.string._parse .undefined none).errors
      ∧ ((s.string.optional)._parse .undefined none).success = true)
    ∧ (((s.string.nullable)._parse .null none).error
        = (s.string._parse .null none).error
      ∧ ((s.string.nullable)._parse .null none).errors
        = (s.string._parse .null none).errors
      ∧ ((s.string.nullable)._parse .null none).success = true)
    ∧ (((s.string.nullish)._parse .null none).error
        = (s.string._parse .null none).error
      ∧ ((s.string.nullish)._parse .null none).errors
        = (s.string._parse .null none).errors
      ∧ ((s.string.nullish)._parse .null none).success = true
      ∧ ((s.string.nullish)._parse .null none).data = .null) :=
  ⟨converted_success_keeps_error_fields.1 s.string none rfl,
   converted_success_keeps_error_fields.2.1 s.string none rfl,
   converted_success_keeps_error_fields.2.2.1 s.string none .null rfl rfl⟩

/-- C7: `parse` raises exactly when `safeParse` fails, the raised error is the
failure's `error` (same `message` and `cause`); on success `parse` returns
`safeParse`'s `data`.  (`safeParse` never raises: it is the total function
`Schema.safeParse`.) -/
theorem parse_safeParse_agreement :
    ∀ (sch : Schema) (v : JSValue) (o : Option ParseOptions),
      ((sch.safeParse v o).success = true ↔ ∃ d, sch.parse v o = Except.ok d)
      ∧ ((sch.safeParse v o).success = true →
          sch.parse v o = Except.ok ((sch.safeParse v o).data))
      ∧ (∀ e, (sch.safeParse v o).success = false →
          (sch.safeParse v o).error = some e →
          sch.parse v o = Except.error e) := by
  intro sch v o
  cases h : (sch._parse v o).success
  · refine ⟨?_, ?_, ?_⟩
    · simp [Schema.safeParse, Schema.parse, h]
    · intro ht
      simp [Schema.safeParse, h] at ht
    · intro e hf he
      simp [Schema.safeParse] at he
      simp [Schema.parse, h, he]
  · refine ⟨?_, ?_, ?_⟩
    · simp [Schema.safeParse, Schema.parse, h]
    · intro _
      simp [Schema.parse, Schema.safeParse, h]
    · intro e hf
      simp [Schema.safeParse, h] at hf

/-- Witness for C7 at `s.string`: success on `"hi"` returns the parsed data,
failure on `1` raises the failure's error structure. -/
theorem parse_safeParse_agreement_witness :
    s.string.parse (.str "hi") none
        = Except.ok ((s.string.safeParse (.str "hi") none).data)
    ∧ s.string.parse (.num 1) none
        = Except.error
            { message := "The value \"1\" must be type of string but is type of \"number\".",
              cause := none } :=
  ⟨(parse_safeParse_agreement s.string (.str "hi") none).2.1 rfl,
   (parse_safeParse_agreement s.string (.num 1) none).2.2 _ rfl rfl⟩

/-- C4: error paths accumulate outside-in: a child error whose `cause.key` is
the (truthy) key `k` is prefixed by the (truthy) parent key `p` as
`p ++ "." ++ k`; concretely, `s.object({a: s.object({b: s.string()})})` on
`{a: {b: 123}}` fails with `error.cause.key = "a.b"`. -/
theorem path_accumulation :
    (∀ (e : ErrorStructure) (p k : String),
      e.cause = some { key := some k } → p.isEmpty = false → k.isEmpty = false →
        (formatError e p).cause = some { key := some (p ++ "." ++ k) })
    ∧ ((nestedAB.safeParse (.obj [("a", .obj [("b", .num 123)])]) none).success = false
    ∧ errorKeyOf (nestedAB.safeParse (.obj [("a", .obj [("b", .num 123)])]) none)
        = some "a.b") := by
  refine ⟨?_, rfl, rfl⟩
  · intro e p k hc hp hk
    simp [formatError, hc, hp, hk]

/-- Witness for C4 applying the quantified part at parent key `"a"` and a
child error keyed `"b"`. -/
theorem path_accumulation_witness :
    (formatError { message := "m", cause := some { key := some "b" } } "a").cause
      = some { key := some "a.b" } :=
  path_accumulation.1 { message := "m", cause := some { key := some "b" } } "a" "b"
    rfl rfl rfl

/-- C1 counterexample: the ParseOptions value is NOT received unchanged by
every nested `_parse` call.  First half — `preprocess` invokes the wrapped
schema's `_parse` as `originalParse(callback(value))`, dropping the options:
parsing with `{abortEarly: false}` behaves exactly like the wrapped schema
under no options, observably collecting `1` error where a nested call that
had received `{abortEarly: false}` would collect `3`.  Second half — a union
invokes each candidate's `_parse` as `definitions[index]._parse(value)`,
dropping the options: with the root receiving `{abortEarly: false}`, the
union returns exactly the candidate's no-options result carrying `1` error,
where the same candidate's `_parse`, had it received `{abortEarly: false}`
as the claim states, reports `2` collected errors. -/
theorem options_propagation_counterexample :
    ((s.preprocess id innerThree).safeParse (.obj []) collectAll
        = innerThree.safeParse (.obj []) none
      ∧ (((s.preprocess id innerThree).safeParse (.obj []) collectAll).errors.getD []).length = 1
      ∧ ((innerThree.safeParse (.obj []) collectAll).errors.getD []).length = 3)
    ∧ ((s.union [unionProbe] unionMsg).safeParse .undefined collectAll
        = unionProbe._parse .undefined none
      ∧ (((s.union [unionProbe] unionMsg).safeParse .undefined collectAll).errors.getD []).length = 1
      ∧ ((unionProbe._parse .undefined collectAll).errors.getD []).length = 2
      ∧ (unionProbe._parse .undefined collectAll).success = true) :=
  ⟨⟨rfl, rfl, rfl⟩, ⟨rfl, rfl, rfl, rfl⟩⟩

/-- C1 amended: the ParseOptions value is propagated unchanged into the
`_parse` of every object field and of a piped schema, but a schema wrapped by
`preprocess` is invoked with no options, and a union's result is entirely
independent of the options it receives (its candidates are invoked with no
options), so those nested calls behave as under the default
`abortEarly: true`. -/
theorem options_propagation_amended :
    (∀ (callback : JSValue → JSValue) (schema : Schema) (v : JSValue)
        (o : Option ParseOptions),
      (s.preprocess callback schema)._parse v o = schema._parse (callback v) none)
    ∧ (∀ (ds : List Schema) (m : JSValue → String) (v : JSValue)
        (o o' : Option ParseOptions),
      (s.union ds m)._parse v o = (s.union ds m)._parse v o')
    ∧ (∀ (prev next : Schema) (v : JSValue) (o : Option ParseOptions),
      (prev._parse v o).success = true →
        (prev.pipe next)._parse v o = next._parse (prev._parse v o).data o)
    ∧ (∀ (key : String) (child : Schema) (v : JSValue) (o : Option ParseOptions),
      objectValidation v = true →
      (child._parse (jsGet v key) o).success = true →
        ((s.object [(key, child)])._parse v o).data
          = .obj [(key, (child._parse (jsGet v key) o).data)]) := by
  refine ⟨fun _ _ _ _ => rfl, fun _ _ _ _ _ => rfl, ?_, ?_⟩
  · intro prev next v o h
    simp [Schema.pipe, h]
  · intro key child v o hv hc
    simp [s.object, createSchemaInterface, hv, objectLoop, hc]

/-- Witness for C1 amended at concrete schemas: `preprocess` drops the
options, `pipe` and `object` forward them. -/
theorem options_propagation_amended_witness :
    (s.preprocess id s.string)._parse (.str "x") collectAll
        = s.string._parse (id (.str "x")) none
    ∧ (s.string.pipe s.any)._parse (.str "x") none
        = s.any._parse ((s.string._parse (.str "x") none).data) none
    ∧ ((s.object [("a", s.string)])._parse (.obj [("a", .str "x")]) collectAll).data
        = .obj [("a", (s.string._parse (jsGet (.obj [("a", .str "x")]) "a") collectAll).data)] :=
  ⟨options_propagation_amended.1 id s.string (.str "x") collectAll,
   options_propagation_amended.2.2.1 s.string s.any (.str "x") none rfl,
   options_propagation_amended.2.2.2 "a" s.string (.obj [("a", .str "x")]) collectAll rfl rfl⟩

/-- The union candidate loop returns the first successful candidate's result:
with every candidate before `c` failing and `c` succeeding (candidates are
invoked with no options, as in the source), the loop stops at `c`. -/
theorem unionTry_append (pre : List Schema) (c : Schema) (post : List Schema)
    (v : JSValue)
    (hfail : ∀ d ∈ pre, (d._parse v none).success = false)
    (hsucc : (c._parse v none).success = true) :
    s.unionTry (pre ++ c :: post) v = some (c._parse v none) := by
  induction pre with
  | nil => simp [s.unionTry, hsucc]
  | cons d rest ih =>
    have hd : (d._parse v none).success = false := hfail d (by simp)
    have hrest : ∀ x ∈ rest, (x._parse v none).success = false := by
      intro x hx
      exact hfail x (by simp [hx])
    simpa [s.unionTry, hd] using ih hrest

/-- When the union validation finds a successful candidate result, the union's
`_parse` returns that result object unchanged. -/
theorem union_parse_eq_of_unionTry (ds : List Schema) (m : JSValue → String)
    (v : JSValue) (o : Option ParseOptions) (r : ParseResult)
    (h : s.unionTry ds v = some r) (hr : r.success = true) :
    (s.union ds m)._parse v o = r := by
  simp [s.union, createSchemaInterface, h, hr]

/-- C2: a union tries its candidates in declared order and returns exactly the
successful result of the first succeeding candidate (that candidate's whole
result object, hence its transformed/piped `data`); candidates after the
first success are never consulted — the result is unchanged when everything
after the first success is replaced. -/
theorem union_first_match :
    ∀ (pre : List Schema) (c : Schema) (post post' : List Schema)
      (m : JSValue → String) (v : JSValue) (o : Option ParseOptions),
      (∀ d ∈ pre, (d._parse v none).success = false) →
      (c._parse v none).success = true →
      (s.union (pre ++ c :: post) m).safeParse v o = c._parse v none
      ∧ (s.union (pre ++ c :: post) m).safeParse v o
          = (s.union (pre ++ c :: post') m).safeParse v o := by
  intro pre c post post' m v o hfail hsucc
  have h1 := unionTry_append pre c post v hfail hsucc
  have h2 := unionTry_append pre c post' v hfail hsucc
  refine ⟨?_, ?_⟩
  · exact union_parse_eq_of_unionTry _ m v o _ h1 hsucc
  · show (s.union (pre ++ c :: post) m)._parse v o
      = (s.union (pre ++ c :: post') m)._parse v o
    rw [union_parse_eq_of_unionTry _ m v o _ h1 hsucc,
      union_parse_eq_of_unionTry _ m v o _ h2 hsucc]

/-- Witness for C2 in the style of the spec's example: in
`union([number, string, min-like-refined-string])` the input `"hi"` is
matched by the second candidate, the result is that candidate's, and dropping
the later candidate does not change the outcome. -/
theorem union_first_match_witness :
    (s.union [s.number, s.string, minTenString] unionMsg).safeParse (.str "hi") none
        = s.string._parse (.str "hi") none
    ∧ (s.union [s.number, s.string, minTenString] unionMsg).safeParse (.str "hi") none
        = (s.union [s.number, s.string] unionMsg).safeParse (.str "hi") none := by
  have hfail : ∀ d ∈ [s.number], (d._parse (JSValue.str "hi") none).success = false := by
    intro d hd
    rw [List.mem_singleton] at hd
    subst hd
    rfl
  have h := union_first_match [s.number] s.string [minTenString] [] unionMsg
    (.str "hi") none hfail rfl
  exact ⟨h.1, h.2⟩

/-- C3 amended: for a three-field object schema on an input where all three
fields fail, the collect-all result (`{abortEarly: false}`) concatenates the
failing fields' formatted `errors` lists in field-declaration order with
`error = errors[0]` — length exactly `3` when each failing field reports a
single error, as each of the hypotheses `errors = some [e]` states (a
composite field that itself collected `k` nested errors contributes `k`
instead, see the counterexample) — while the default options return only the
first failing field's single formatted error, as both `error` and the sole
element of `errors`. -/
theorem abort_early_vs_collect_all :
    ∀ (k1 k2 k3 : String) (s1 s2 s3 : Schema) (v : JSValue)
      (e1 e2 e3 e1d : ErrorStructure),
      objectValidation v = true →
      (s1._parse (jsGet v k1) collectAll).success = false →
      (s1._parse (jsGet v k1) collectAll).errors = some [e1] →
      (s2._parse (jsGet v k2) collectAll).success = false →
      (s2._parse (jsGet v k2) collectAll).errors = some [e2] →
      (s3._parse (jsGet v k3) collectAll).success = false →
      (s3._parse (jsGet v k3) collectAll).errors = some [e3] →
      (s1._parse (jsGet v k1) none).success = false →
      (s1._parse (jsGet v k1) none).error = some e1d →
      ((s.object [(k1, s1), (k2, s2), (k3, s3)]).safeParse v collectAll
          = { success := false, data := .undefined,
              error := some (formatError e1 k1),
              errors := some [formatError e1 k1, formatError e2 k2,
                formatError e3 k3] }
        ∧ (s.object [(k1, s1), (k2, s2), (k3, s3)]).safeParse v none
          = { success := false, data := .undefined,
              error := some (formatError e1d k1),
              errors := some [formatError e1d k1] }) := by
  intro k1 k2 k3 s1 s2 s3 v e1 e2 e3 e1d hv h1 he1 h2 he2 h3 he3 h1n he1n
  constructor
  · simp only [collectAll] at h1 he1 h2 he2 h3 he3
    simp [Schema.safeParse, s.object, createSchemaInterface, hv, objectLoop,
      h1, he1, h2, he2, h3, he3, propagateNestedErrors, collectAll,
      resolveParseOptions, defaultParseOptions]
  · simp [Schema.safeParse, s.object, createSchemaInterface, hv, objectLoop,
      h1n, he1n, resolveParseOptions, defaultParseOptions]

/-- C3 counterexample to "errors has length exactly 3": in
`threeFieldNested`, all three fields fail on `c3Input` under
`{abortEarly: false}`, yet the collected `errors` list has length `4` — the
first field is itself a collecting object contributing its two nested
formatted errors. -/
theorem abort_early_vs_collect_all_counterexample :
    (nestedXY._parse (jsGet c3Input "a") collectAll).success = false
    ∧ (s.string._parse (jsGet c3Input "b") collectAll).success = false
    ∧ (s.string._parse (jsGet c3Input "c") collectAll).success = false
    ∧ (threeFieldNested.safeParse c3Input collectAll).success = false
    ∧ ((threeFieldNested.safeParse c3Input collectAll).errors.getD []).length = 4 :=
  ⟨rfl, rfl, rfl, rfl, rfl⟩

/-- Witness for C3 amended at the leaf schema
`s.object({a: string, b: string, c: string})` on the empty object: exactly
three collected errors in declaration order, exactly one under the default
options. -/
theorem abort_early_vs_collect_all_witness :
    (s.object [("a", s.string), ("b", s.string), ("c", s.string)]).safeParse
        (.obj []) collectAll
      = { success := false, data := .undefined,
          error := some (formatError undefinedStringError "a"),
          errors := some [formatError undefinedStringError "a",
            formatError undefinedStringError "b",
            formatError undefinedStringError "c"] }
    ∧ (s.object [("a", s.string), ("b", s.string), ("c", s.string)]).safeParse
        (.obj []) none
      = { success := false, data := .undefined,
          error := some (formatError undefinedStringError "a"),
          errors := some [formatError undefinedStringError "a"] } :=
  abort_early_vs_collect_all "a" "b" "c" s.string s.string s.string (.obj [])
    undefinedStringError undefinedStringError undefinedStringError
    undefinedStringError rfl rfl rfl rfl rfl rfl rfl rfl rfl

/-- When every field of the definition parses successfully (and the collected
error list is empty), the object loop returns a fresh object holding exactly
the definition's keys in declaration order, each bound to its child's parsed
`data`. -/
theorem objectLoop_all_success (po : Option ParseOptions) (ae : Option Bool)
    (v : JSValue) :
    ∀ (defs : List (String × Schema)) (acc : List (String × JSValue)),
      (∀ p ∈ defs, ((p.2)._parse (jsGet v p.1) po).success = true) →
      objectLoop po ae v defs acc []
        = { success := true,
            data := .obj (acc ++ defs.map
              (fun p => (p.1, ((p.2)._parse (jsGet v p.1) po).data))),
            error := none, errors := none } := by
  intro defs
  induction defs with
  | nil =>
    intro acc _
    simp [objectLoop]
  | cons p rest ih =>
    intro acc h
    obtain ⟨key, child⟩ := p
    have hp : (child._parse (jsGet v key) po).success = true := h (key, child) (by simp)
    have hrest : ∀ q ∈ rest, ((q.2)._parse (jsGet v q.1) po).success = true := by
      intro q hq
      exact h q (by simp [hq])
    simp only [objectLoop, hp, if_true]
    rw [ih (acc ++ [(key, (child._parse (jsGet v key) po).data)]) hrest]
    simp

/-- C10: on a successful parse an object schema returns a newly built object
whose bindings are exactly the definition's keys, in declaration order, each
bound to its child's parsed data — input properties outside the definition
are absent from the output, as the concrete instance (input key `"b"`
dropped) shows.  (Non-mutation of the input is inherent to the embedding and
to the source, which only ever writes into the fresh `acc` object.) -/
theorem object_output_keys :
    (∀ (definition : List (String × Schema)) (v : JSValue) (o : Option ParseOptions),
      objectValidation v = true →
      (∀ p ∈ definition, ((p.2)._parse (jsGet v p.1) o).success = true) →
      (s.object definition).safeParse v o
        = { success := true,
            data := .obj (definition.map
              (fun p => (p.1, ((p.2)._parse (jsGet v p.1) o).data))),
            error := none, errors := none })
    ∧ (s.object [("a", s.string)]).safeParse
        (.obj [("a", .str "x"), ("b", .num 1)]) none
      = { success := true, data := .obj [("a", .str "x")],
          error := none, errors := none } := by
  refine ⟨?_, rfl⟩
  intro definition v o hv hall
  simp only [Schema.safeParse, s.object]
  simp only [createSchemaInterface, hv]
  rw [objectLoop_all_success o _ v definition [] hall]
  simp

/-- Witness for C10 at a concrete schema and input with an extra property. -/
theorem object_output_keys_witness :
    (s.object [("a", s.string)]).safeParse (.obj [("a", .str "x"), ("b", .num 1)]) none
      = { success := true,
          data := .obj ([("a", s.string)].map
            (fun p => (p.1, ((p.2)._parse (jsGet (.obj [("a", .str "x"), ("b", .num 1)]) p.1) none).data))),
          error := none, errors := none } :=
  object_output_keys.1 [("a", s.string)] (.obj [("a", .str "x"), ("b", .num 1)]) none
    rfl (by
      intro p hp
      rw [List.mem_singleton] at hp
      subst hp
      rfl)

end EsmjSchema
